import Mathlib

/-!
Shallow embedding of the cost-governance core of the `amp-eval` repository
(`src/amp_eval/cost_tracking.py`, `quota_enforcer.py`, `context_monitor.py`,
`rate_limiter.py`, `audit_logger.py`).

Conventions of the embedding:
* Python floats are modelled as exact rationals (`ℚ`); decimal literals such
  as `0.04` denote the corresponding rational.
* Token counts are `ℕ`; quantities that the source computes as differences of
  Python ints (e.g. remaining hourly tokens) are `ℤ`.
* Wall-clock time (`time.time()`) is passed explicitly as a `ℚ` parameter.
* Database state is passed explicitly: the ledger aggregates that
  `check_quota_compliance` reads (daily cost, hourly tokens) are arguments.
* The free-form `message` string of `QuotaCheck` and the open-ended
  `metadata` maps are not modelled; no claim refers to them.
-/

namespace AmpEval

/-- One entry of the static `MODEL_COSTS` pricing table (cost per 1K tokens). -/
structure ModelPricing where
  input_cost_per_1k : ℚ
  output_cost_per_1k : ℚ
  context_window : ℕ
  max_output : ℕ
  deriving DecidableEq, Repr

/-- The `MODEL_COSTS` dict of `cost_tracking.py`, as the lookup function
`MODEL_COSTS.get(model)`. -/
def MODEL_COSTS (model : String) : Option ModelPricing :=
  if model = "sonnet-4" then some ⟨0.003, 0.015, 200000, 4096⟩
  else if model = "gpt-5" then some ⟨0.01, 0.03, 128000, 4096⟩
  else if model = "o3" then some ⟨0.04, 0.12, 200000, 65536⟩
  else if model = "gpt-4o" then some ⟨0.0025, 0.01, 128000, 16384⟩
  else none

/-- `MODEL_COSTS.get(model, {}).get("context_window", 128000)`. -/
def contextWindowOr128k (model : String) : ℕ :=
  match MODEL_COSTS model with
  | some c => c.context_window
  | none => 128000

/-- The `TokenUsage` dataclass, field values as supplied to the constructor
(before `__post_init__`). -/
structure TokenUsage where
  input_tokens : ℕ
  output_tokens : ℕ
  total_tokens : ℕ
  context_window_used : ℕ
  context_window_limit : ℕ
  deriving DecidableEq, Repr

/-- `TokenUsage.__post_init__`: fill `total_tokens` only when it was left 0. -/
def TokenUsage.postInit (u : TokenUsage) : TokenUsage :=
  if u.total_tokens = 0 then
    { u with total_tokens := u.input_tokens + u.output_tokens }
  else u

/-- Constructing a `TokenUsage` in Python: field assignment then
`__post_init__`. -/
def mkTokenUsage (input_tokens output_tokens total_tokens context_window_used
    context_window_limit : ℕ) : TokenUsage :=
  TokenUsage.postInit
    ⟨input_tokens, output_tokens, total_tokens, context_window_used, context_window_limit⟩

/-- The per-1k rates chosen by `CostTracker.calculate_cost`: table entry for a
known model, the hard-coded defaults `0.001` / `0.003` otherwise. -/
def calcRates (model : String) : ℚ × ℚ :=
  match MODEL_COSTS model with
  | none => (0.001, 0.003)
  | some c => (c.input_cost_per_1k, c.output_cost_per_1k)

/-- `CostTracker.calculate_cost`: returns (input_cost, output_cost, total_cost). -/
def calculate_cost (model : String) (token_usage : TokenUsage) : ℚ × ℚ × ℚ :=
  let input_cost := ((token_usage.input_tokens : ℚ) / 1000) * (calcRates model).1
  let output_cost := ((token_usage.output_tokens : ℚ) / 1000) * (calcRates model).2
  (input_cost, output_cost, input_cost + output_cost)

/-- `CostTracker.assess_context_degradation`. -/
def assess_context_degradation (model : String) (token_usage : TokenUsage) :
    Option String :=
  match MODEL_COSTS model with
  | none => none
  | some c =>
    let utilization : ℚ := (token_usage.context_window_used : ℚ) / (c.context_window : ℚ)
    if utilization > 0.95 then some "critical_context_usage"
    else if utilization > 0.85 then some "high_context_usage"
    else if utilization > 0.7 then some "moderate_context_usage"
    else none

/-- The `CostRecord` dataclass (metadata map not modelled). -/
structure CostRecord where
  timestamp : ℚ
  evaluation_id : String
  task_id : String
  model : String
  token_usage : TokenUsage
  input_cost : ℚ
  output_cost : ℚ
  total_cost : ℚ
  context_utilization : ℚ
  degradation_indicator : Option String
  deriving DecidableEq, Repr

/-- `CostTracker.record_usage`: the `CostRecord` it constructs (the SQLite
insert and the post-hoc budget warning logging have no effect on the record). -/
def record_usage (timestamp : ℚ) (evaluation_id task_id model : String)
    (token_usage : TokenUsage) : CostRecord :=
  let costs := calculate_cost model token_usage
  let context_limit := contextWindowOr128k model
  let context_utilization : ℚ :=
    if context_limit > 0 then (token_usage.context_window_used : ℚ) / (context_limit : ℚ) else 0
  { timestamp := timestamp
    evaluation_id := evaluation_id
    task_id := task_id
    model := model
    token_usage := token_usage
    input_cost := costs.1
    output_cost := costs.2.1
    total_cost := costs.2.2
    context_utilization := context_utilization
    degradation_indicator := assess_context_degradation model token_usage }

/-- The `BudgetLimits` dataclass. -/
structure BudgetLimits where
  daily_cost_limit : ℚ
  monthly_cost_limit : ℚ
  hourly_token_limit : ℕ
  daily_token_limit : ℕ
  max_context_utilization : ℚ
  cost_alert_threshold : ℚ
  deriving DecidableEq, Repr

/-- The default `BudgetLimits()`. -/
def defaultBudgetLimits : BudgetLimits :=
  ⟨100, 2000, 100000, 1000000, 0.9, 0.8⟩

/-- `QuotaStatus` enum. -/
inductive QuotaStatus where
  | ALLOWED
  | WARNING
  | BLOCKED
  deriving DecidableEq, Repr

/-- The `QuotaCheck` dataclass (free-form `message` not modelled). -/
structure QuotaCheck where
  status : QuotaStatus
  estimated_cost : ℚ
  estimated_tokens : ℕ
  remaining_daily_budget : ℚ
  remaining_hourly_tokens : ℤ
  context_utilization : ℚ
  deriving DecidableEq, Repr

/-- The per-1k rates chosen by `QuotaEnforcer.estimate_evaluation_cost`: table
entry for a known model, the hard-coded `0.04` / `0.12` otherwise. -/
def estimateRates (model : String) : ℚ × ℚ :=
  match MODEL_COSTS model with
  | none => (0.04, 0.12)
  | some c => (c.input_cost_per_1k, c.output_cost_per_1k)

/-- `QuotaEnforcer.estimate_evaluation_cost`: (total_cost, total_tokens). -/
def estimate_evaluation_cost (model : String)
    (estimated_input_tokens estimated_output_tokens : ℕ) : ℚ × ℕ :=
  (((estimated_input_tokens : ℚ) / 1000) * (estimateRates model).1 +
     ((estimated_output_tokens : ℚ) / 1000) * (estimateRates model).2,
   estimated_input_tokens + estimated_output_tokens)

/-- The context utilization computed inside `check_quota_compliance`. -/
def quotaContextUtil (model : String) (context_tokens : ℕ) : ℚ :=
  let context_limit := contextWindowOr128k model
  if context_limit > 0 then (context_tokens : ℚ) / (context_limit : ℚ) else 0

/-- The status decision chain of `QuotaEnforcer.check_quota_compliance`, over
the ledger aggregates it reads (`daily_cost_used`, `hourly_tokens_used`). -/
def quotaStatusOf (limits : BudgetLimits) (daily_cost_used : ℚ)
    (hourly_tokens_used : ℕ) (model : String)
    (estimated_input_tokens estimated_output_tokens context_tokens : ℕ) :
    QuotaStatus :=
  let est := estimate_evaluation_cost model estimated_input_tokens estimated_output_tokens
  let context_utilization := quotaContextUtil model context_tokens
  let remaining_daily_budget : ℚ := limits.daily_cost_limit - daily_cost_used
  let remaining_hourly_tokens : ℤ :=
    (limits.hourly_token_limit : ℤ) - (hourly_tokens_used : ℤ)
  if est.1 > remaining_daily_budget then .BLOCKED
  else if (est.2 : ℤ) > remaining_hourly_tokens then .BLOCKED
  else if context_utilization > limits.max_context_utilization then .BLOCKED
  else if (daily_cost_used + est.1) / limits.daily_cost_limit > limits.cost_alert_threshold then
    .WARNING
  else if ((hourly_tokens_used : ℚ) + (est.2 : ℚ)) / (limits.hourly_token_limit : ℚ) >
      limits.cost_alert_threshold then
    .WARNING
  else if context_utilization > 0.8 then .WARNING
  else .ALLOWED

/-- `QuotaEnforcer.check_quota_compliance`. -/
def check_quota_compliance (limits : BudgetLimits) (daily_cost_used : ℚ)
    (hourly_tokens_used : ℕ) (model : String)
    (estimated_input_tokens estimated_output_tokens context_tokens : ℕ) :
    QuotaCheck :=
  { status := quotaStatusOf limits daily_cost_used hourly_tokens_used model
      estimated_input_tokens estimated_output_tokens context_tokens
    estimated_cost :=
      (estimate_evaluation_cost model estimated_input_tokens estimated_output_tokens).1
    estimated_tokens :=
      (estimate_evaluation_cost model estimated_input_tokens estimated_output_tokens).2
    remaining_daily_budget := limits.daily_cost_limit - daily_cost_used
    remaining_hourly_tokens := (limits.hourly_token_limit : ℤ) - (hourly_tokens_used : ℤ)
    context_utilization := quotaContextUtil model context_tokens }

/-- `enforce_quota`: raising `QuotaException(quota_check)` is modelled as
`Except.error quota_check`. -/
def enforce_quota (limits : BudgetLimits) (daily_cost_used : ℚ)
    (hourly_tokens_used : ℕ) (model : String)
    (estimated_input_tokens estimated_output_tokens context_tokens : ℕ)
    (allow_warnings : Bool) : Except QuotaCheck QuotaCheck :=
  let quota_check := check_quota_compliance limits daily_cost_used hourly_tokens_used
    model estimated_input_tokens estimated_output_tokens context_tokens
  if quota_check.status = .BLOCKED then .error quota_check
  else if quota_check.status = .WARNING ∧ allow_warnings = false then .error quota_check
  else .ok quota_check

/-- `enforce_quota` called with its defaults (`context_tokens = 0`,
`allow_warnings = True`). -/
def enforce_quota_with_defaults (limits : BudgetLimits) (daily_cost_used : ℚ)
    (hourly_tokens_used : ℕ) (model : String)
    (estimated_input_tokens estimated_output_tokens : ℕ) :
    Except QuotaCheck QuotaCheck :=
  enforce_quota limits daily_cost_used hourly_tokens_used model
    estimated_input_tokens estimated_output_tokens 0 true

/-! ### Circuit breaker (`rate_limiter.py`) -/

/-- `CircuitState` enum. -/
inductive CircuitState where
  | CLOSED
  | OPEN
  | HALF_OPEN
  deriving DecidableEq, Repr

/-- `CircuitBreakerConfig` dataclass. -/
structure CircuitBreakerConfig where
  failure_threshold : ℕ
  recovery_timeout : ℚ
  success_threshold : ℕ
  max_tokens_per_hour : ℕ
  max_cost_per_hour : ℚ
  deriving DecidableEq, Repr

/-- The default `CircuitBreakerConfig()`. -/
def defaultCircuitBreakerConfig : CircuitBreakerConfig :=
  ⟨5, 60, 3, 100000, 50⟩

/-- `RequestStats` dataclass. -/
structure RequestStats where
  total_requests : ℕ
  successful_requests : ℕ
  failed_requests : ℕ
  total_tokens : ℕ
  total_cost : ℚ
  last_reset : ℚ
  request_times : List ℚ
  deriving DecidableEq, Repr

/-- `CircuitBreaker` object state; `time.time()` is an explicit parameter of
each operation. -/
structure CircuitBreaker where
  config : CircuitBreakerConfig
  state : CircuitState
  failure_count : ℕ
  success_count : ℕ
  last_failure_time : ℚ
  stats : RequestStats
  deriving DecidableEq, Repr

/-- A freshly constructed `CircuitBreaker(config)` at time `now`. -/
def CircuitBreaker.init (config : CircuitBreakerConfig) (now : ℚ) : CircuitBreaker :=
  ⟨config, .CLOSED, 0, 0, 0, ⟨0, 0, 0, 0, 0, now, []⟩⟩

/-- `CircuitBreaker._reset_stats_if_needed` at time `now`. -/
def CircuitBreaker.resetStatsIfNeeded (cb : CircuitBreaker) (now : ℚ) : CircuitBreaker :=
  if now - cb.stats.last_reset > 3600 then
    { cb with stats :=
        { cb.stats with
            total_tokens := 0
            total_cost := 0
            last_reset := now
            request_times := cb.stats.request_times.filter (fun t => t > now - 3600) } }
  else cb

/-- `CircuitBreaker._check_cost_limits`: true when the estimate fits under the
hourly ceilings (the source raises `CostLimitExceeded` otherwise). -/
def CircuitBreaker.costLimitsOk (cb : CircuitBreaker) (estimated_tokens : ℕ)
    (estimated_cost : ℚ) : Bool :=
  ¬ (cb.stats.total_tokens + estimated_tokens > cb.config.max_tokens_per_hour) ∧
    ¬ (cb.stats.total_cost + estimated_cost > cb.config.max_cost_per_hour)

/-- `CircuitBreaker.can_request` at time `now`: returns the boolean answer and
the mutated breaker. -/
def CircuitBreaker.can_request (cb : CircuitBreaker) (now : ℚ)
    (estimated_tokens : ℕ) (estimated_cost : ℚ) : Bool × CircuitBreaker :=
  let cb := cb.resetStatsIfNeeded now
  if ¬ cb.costLimitsOk estimated_tokens estimated_cost then (false, cb)
  else if cb.state = .OPEN then
    if now - cb.last_failure_time > cb.config.recovery_timeout then
      (true, { cb with state := .HALF_OPEN, success_count := 0 })
    else (false, cb)
  else (true, cb)

/-- `CircuitBreaker.record_success` at time `now`. -/
def CircuitBreaker.record_success (cb : CircuitBreaker) (now : ℚ)
    (tokens_used : ℕ) (cost : ℚ) : CircuitBreaker :=
  let cb := { cb with stats :=
    { cb.stats with
        successful_requests := cb.stats.successful_requests + 1
        total_tokens := cb.stats.total_tokens + tokens_used
        total_cost := cb.stats.total_cost + cost
        request_times := cb.stats.request_times ++ [now] } }
  if cb.state = .HALF_OPEN then
    let cb := { cb with success_count := cb.success_count + 1 }
    if cb.success_count ≥ cb.config.success_threshold then
      { cb with state := .CLOSED, failure_count := 0 }
    else cb
  else cb

/-- `CircuitBreaker.record_failure` at time `now`. -/
def CircuitBreaker.record_failure (cb : CircuitBreaker) (now : ℚ) : CircuitBreaker :=
  let cb := { cb with
    stats := { cb.stats with failed_requests := cb.stats.failed_requests + 1 }
    failure_count := cb.failure_count + 1
    last_failure_time := now }
  if cb.failure_count ≥ cb.config.failure_threshold then
    { cb with state := .OPEN }
  else cb

/-! ### Context monitor (`context_monitor.py`) -/

/-- `PerformanceTier` enum. -/
inductive PerformanceTier where
  | OPTIMAL
  | GOOD
  | DEGRADED
  | POOR
  | CRITICAL
  deriving DecidableEq, Repr

/-- `ContextMonitor.assess_performance_tier`. -/
def assess_performance_tier (context_utilization : ℚ) : PerformanceTier :=
  if context_utilization ≥ 0.95 then .CRITICAL
  else if context_utilization ≥ 0.90 then .POOR
  else if context_utilization ≥ 0.75 then .DEGRADED
  else if context_utilization ≥ 0.60 then .GOOD
  else .OPTIMAL

/-- Splitting a character list at every occurrence of `sep` (Python
`str.split(sep)` for a one-character separator, empty fields kept). -/
def splitOnChar (sep : Char) : List Char → List (List Char)
  | [] => [[]]
  | c :: cs =>
    if c = sep then [] :: splitOnChar sep cs
    else
      match splitOnChar sep cs with
      | [] => [[c]]
      | w :: ws => (c :: w) :: ws

/-- Python `str.split()` on a response text. Whitespace other than the space
character does not occur in the texts the claims quantify over; the embedding
splits on spaces and drops empty fields, which agrees with `str.split()` on
space-separated text. -/
def pySplit (s : String) : List String :=
  ((splitOnChar ' ' s.data).map (fun cs => String.mk cs)).filter (fun w => w ≠ "")

/-- Python `str.split('.')` (empty fields kept). -/
def pySplitDot (s : String) : List String :=
  (splitOnChar '.' s.data).map (fun cs => String.mk cs)

/-- Python `' '.join(words)`. -/
def joinWords : List String → String
  | [] => ""
  | w :: ws =>
    match ws with
    | [] => w
    | _ :: _ => w ++ " " ++ joinWords ws

/-- Occurrence of `needle` as a contiguous run inside `hay` (Python's
substring test `needle in hay`, on the character lists). -/
def seqContains (needle : List Char) : List Char → Bool
  | [] => needle.isEmpty
  | c :: cs => needle.isPrefixOf (c :: cs) || seqContains needle cs

/-- Python `needle in hay` on strings. -/
def strContains (hay needle : String) : Bool :=
  seqContains needle.data hay.data

/-- The repetition scan of `detect_response_issues`: only texts of more than
10 words are scanned; for each start `i` below `len(words) - 5` the 3-word
phrase at `i` is looked up as a substring of the joined remainder. -/
def detectRepetition (words : List String) : Bool :=
  if words.length > 10 then
    (List.range (words.length - 5)).any (fun i =>
      strContains (joinWords (words.drop (i + 3))) (joinWords ((words.drop i).take 3)))
  else false

/-- Python `text.endswith(suffix)`, as a suffix test on the character lists. -/
def strEndsWith (text suffix : String) : Bool :=
  suffix.data.isSuffixOf text.data

/-- The truncation scan of `detect_response_issues` (non-empty text). -/
def detectTruncation (response_text : String) (expected_length : Option ℕ) : Bool :=
  if strEndsWith response_text "..." ∨ strEndsWith response_text "[truncated]" ∨
      strEndsWith response_text "I apologize, but I" then
    true
  else
    match expected_length with
    | some n => if n ≠ 0 ∧ (response_text.length : ℚ) < (n : ℚ) * 0.5 then true else false
    | none => false

/-- The average sentence length computed by `detect_response_issues`:
`sum(len(s.split()) for s in sentences) / max(len(sentences), 1)` with
`sentences = response_text.split('.')`. -/
def avgSentenceLength (response_text : String) : ℚ :=
  let sentences := pySplitDot response_text
  ((sentences.map (fun s => (pySplit s).length)).sum : ℚ) /
    (max sentences.length 1 : ℚ)

/-- The coherence score of `detect_response_issues` (non-empty text): start at
1.0, penalize degenerate sentence length, repetition and truncation, floor
at 0. -/
def coherenceScore (truncation_detected repetition_detected : Bool)
    (response_text : String) : ℚ :=
  let score1 : ℚ :=
    if avgSentenceLength response_text < 3 ∨ avgSentenceLength response_text > 50 then
      1 - 0.2
    else 1
  let score2 : ℚ := if repetition_detected then score1 - 0.3 else score1
  let score3 : ℚ := if truncation_detected then score2 - 0.4 else score2
  max 0 score3

/-- `ContextMonitor.detect_response_issues`: returns
(truncation_detected, repetition_detected, coherence_score). -/
def detect_response_issues (response_text : String) (expected_length : Option ℕ) :
    Bool × Bool × ℚ :=
  if response_text = "" then (true, false, 0)
  else
    (detectTruncation response_text expected_length,
     detectRepetition (pySplit response_text),
     coherenceScore (detectTruncation response_text expected_length)
       (detectRepetition (pySplit response_text)) response_text)

/-! ### Evaluation lemmas for the pricing table -/

theorem MODEL_COSTS_sonnet4 : MODEL_COSTS "sonnet-4" = some ⟨0.003, 0.015, 200000, 4096⟩ := rfl

theorem MODEL_COSTS_gpt5 : MODEL_COSTS "gpt-5" = some ⟨0.01, 0.03, 128000, 4096⟩ := rfl

theorem MODEL_COSTS_o3 : MODEL_COSTS "o3" = some ⟨0.04, 0.12, 200000, 65536⟩ := rfl

theorem MODEL_COSTS_gpt4o : MODEL_COSTS "gpt-4o" = some ⟨0.0025, 0.01, 128000, 16384⟩ := rfl

/-! ### Audit logger (`audit_logger.py`) -/

/-- `AuditLogger._calculate_compliance_score`. -/
def calculate_compliance_score (violations alerts degradations : ℕ) : ℚ :=
  max 0 (1 - (violations : ℚ) * 0.1 - (alerts : ℚ) * 0.05 - (degradations : ℚ) * 0.02)

/-! ## Shared helper lemmas -/

theorem contextWindowOr128k_pos (model : String) : 0 < contextWindowOr128k model := by
  unfold contextWindowOr128k MODEL_COSTS
  split_ifs <;> norm_num

theorem estimateRates_fst_nonneg (model : String) : 0 ≤ (estimateRates model).1 := by
  unfold estimateRates MODEL_COSTS
  split_ifs <;> norm_num

/-- The three hard-limit (blocking) conditions of the quota decision chain. -/
def quotaBlockCond (limits : BudgetLimits) (daily_cost_used : ℚ)
    (hourly_tokens_used : ℕ) (model : String) (ein eout ctx : ℕ) : Prop :=
  (estimate_evaluation_cost model ein eout).1 > limits.daily_cost_limit - daily_cost_used ∨
    ((estimate_evaluation_cost model ein eout).2 : ℤ) >
      (limits.hourly_token_limit : ℤ) - (hourly_tokens_used : ℤ) ∨
    quotaContextUtil model ctx > limits.max_context_utilization

/-- The three warning conditions of the quota decision chain. -/
def quotaWarnCond (limits : BudgetLimits) (daily_cost_used : ℚ)
    (hourly_tokens_used : ℕ) (model : String) (ein eout ctx : ℕ) : Prop :=
  (daily_cost_used + (estimate_evaluation_cost model ein eout).1) /
      limits.daily_cost_limit > limits.cost_alert_threshold ∨
    ((hourly_tokens_used : ℚ) + ((estimate_evaluation_cost model ein eout).2 : ℚ)) /
      (limits.hourly_token_limit : ℚ) > limits.cost_alert_threshold ∨
    quotaContextUtil model ctx > 0.8

instance (limits : BudgetLimits) (daily_cost_used : ℚ) (hourly_tokens_used : ℕ)
    (model : String) (ein eout ctx : ℕ) :
    Decidable (quotaBlockCond limits daily_cost_used hourly_tokens_used model ein eout ctx) := by
  unfold quotaBlockCond; infer_instance

instance (limits : BudgetLimits) (daily_cost_used : ℚ) (hourly_tokens_used : ℕ)
    (model : String) (ein eout ctx : ℕ) :
    Decidable (quotaWarnCond limits daily_cost_used hourly_tokens_used model ein eout ctx) := by
  unfold quotaWarnCond; infer_instance

theorem quotaStatusOf_blocked_iff (limits : BudgetLimits) (daily_cost_used : ℚ)
    (hourly_tokens_used : ℕ) (model : String) (ein eout ctx : ℕ) :
    quotaStatusOf limits daily_cost_used hourly_tokens_used model ein eout ctx =
      QuotaStatus.BLOCKED ↔
    quotaBlockCond limits daily_cost_used hourly_tokens_used model ein eout ctx := by
  unfold quotaStatusOf quotaBlockCond
  dsimp only
  split_ifs <;> simp_all

theorem quotaStatusOf_allowed_iff (limits : BudgetLimits) (daily_cost_used : ℚ)
    (hourly_tokens_used : ℕ) (model : String) (ein eout ctx : ℕ) :
    quotaStatusOf limits daily_cost_used hourly_tokens_used model ein eout ctx =
      QuotaStatus.ALLOWED ↔
    ¬ quotaBlockCond limits daily_cost_used hourly_tokens_used model ein eout ctx ∧
      ¬ quotaWarnCond limits daily_cost_used hourly_tokens_used model ein eout ctx := by
  unfold quotaStatusOf quotaBlockCond quotaWarnCond
  dsimp only
  split_ifs <;> simp_all

theorem quotaStatusOf_warning_iff (limits : BudgetLimits) (daily_cost_used : ℚ)
    (hourly_tokens_used : ℕ) (model : String) (ein eout ctx : ℕ) :
    quotaStatusOf limits daily_cost_used hourly_tokens_used model ein eout ctx =
      QuotaStatus.WARNING ↔
    ¬ quotaBlockCond limits daily_cost_used hourly_tokens_used model ein eout ctx ∧
      quotaWarnCond limits daily_cost_used hourly_tokens_used model ein eout ctx := by
  unfold quotaStatusOf quotaBlockCond quotaWarnCond
  dsimp only
  split_ifs <;> simp_all

theorem estimate_cost_mono (model : String) (a b eout : ℕ) (hab : a ≤ b) :
    (estimate_evaluation_cost model a eout).1 ≤ (estimate_evaluation_cost model b eout).1 := by
  unfold estimate_evaluation_cost
  dsimp only
  have h1 : ((a : ℚ)) ≤ (b : ℚ) := by exact_mod_cast hab
  have h2 := estimateRates_fst_nonneg model
  have h3 : (a : ℚ) / 1000 * (estimateRates model).1 ≤
      (b : ℚ) / 1000 * (estimateRates model).1 := by
    apply mul_le_mul_of_nonneg_right _ h2
    linarith
  linarith

/-! ## Claim theorems -/

/-- Claim C8: the performance-tier classification is lower-bound inclusive at
the fixed boundaries: utilization exactly 0.60 maps to GOOD, 0.75 to
DEGRADED, 0.90 to POOR, 0.95 to CRITICAL, and any utilization strictly below
0.60 maps to OPTIMAL. -/
theorem claim_C8 (u : ℚ) (h : u < 0.60) :
    assess_performance_tier 0.60 = PerformanceTier.GOOD ∧
    assess_performance_tier 0.75 = PerformanceTier.DEGRADED ∧
    assess_performance_tier 0.90 = PerformanceTier.POOR ∧
    assess_performance_tier 0.95 = PerformanceTier.CRITICAL ∧
    assess_performance_tier u = PerformanceTier.OPTIMAL := by
  refine ⟨by norm_num [assess_performance_tier], by norm_num [assess_performance_tier],
    by norm_num [assess_performance_tier], by norm_num [assess_performance_tier], ?_⟩
  unfold assess_performance_tier
  rw [if_neg (by intro hc; rw [ge_iff_le] at hc; linarith),
    if_neg (by intro hc; rw [ge_iff_le] at hc; linarith),
    if_neg (by intro hc; rw [ge_iff_le] at hc; linarith),
    if_neg (by intro hc; rw [ge_iff_le] at hc; linarith)]

/-- Witness for C8 at utilization 0.599. -/
theorem claim_C8_witness :
    (0.599 : ℚ) < 0.60 ∧
    (assess_performance_tier 0.60 = PerformanceTier.GOOD ∧
      assess_performance_tier 0.75 = PerformanceTier.DEGRADED ∧
      assess_performance_tier 0.90 = PerformanceTier.POOR ∧
      assess_performance_tier 0.95 = PerformanceTier.CRITICAL ∧
      assess_performance_tier 0.599 = PerformanceTier.OPTIMAL) :=
  ⟨by norm_num, claim_C8 0.599 (by norm_num)⟩

/-- Claim C9: for all nonnegative counts, the compliance score equals
clamp(1 − 0.1·violations − 0.05·alerts − 0.02·degradations, 0, 1) and stays
within [0, 1]. -/
theorem claim_C9 (violations alerts degradations : ℕ) :
    calculate_compliance_score violations alerts degradations =
      max 0 (min 1 (1 - (violations : ℚ) * 0.1 - (alerts : ℚ) * 0.05 -
        (degradations : ℚ) * 0.02)) ∧
    0 ≤ calculate_compliance_score violations alerts degradations ∧
    calculate_compliance_score violations alerts degradations ≤ 1 := by
  have hx : (1 : ℚ) - (violations : ℚ) * 0.1 - (alerts : ℚ) * 0.05 -
      (degradations : ℚ) * 0.02 ≤ 1 := by
    have hv : (0 : ℚ) ≤ (violations : ℚ) * 0.1 :=
      mul_nonneg (Nat.cast_nonneg violations) (by norm_num)
    have ha : (0 : ℚ) ≤ (alerts : ℚ) * 0.05 :=
      mul_nonneg (Nat.cast_nonneg alerts) (by norm_num)
    have hd : (0 : ℚ) ≤ (degradations : ℚ) * 0.02 :=
      mul_nonneg (Nat.cast_nonneg degradations) (by norm_num)
    linarith
  unfold calculate_compliance_score
  refine ⟨by rw [min_eq_right hx], le_max_left 0 _, max_le (by norm_num) hx⟩

/-- Helper for C1: the literal "unknown-model" is not in the pricing table. -/
theorem MODEL_COSTS_unknown_model : MODEL_COSTS "unknown-model" = none := rfl

/-- Claim C1 counterexample: for the unknown model "unknown-model" and 1000
input tokens, the ledger's `calculate_cost` yields a total cost of 0.001,
while the highest-priced table model "o3" would cost 0.04 — so the cost the
ledger computes for an unknown model is NOT the highest-known rate. -/
theorem claim_C1_counterexample :
    MODEL_COSTS "unknown-model" = none ∧
    (calculate_cost "unknown-model" (mkTokenUsage 1000 0 0 0 0)).2.2 = 0.001 ∧
    (calculate_cost "o3" (mkTokenUsage 1000 0 0 0 0)).2.2 = 0.04 ∧
    (calculate_cost "unknown-model" (mkTokenUsage 1000 0 0 0 0)).2.2 ≠
      (calculate_cost "o3" (mkTokenUsage 1000 0 0 0 0)).2.2 := by
  refine ⟨rfl, ?_, ?_, ?_⟩ <;>
    norm_num [calculate_cost, calcRates, MODEL_COSTS_unknown_model, MODEL_COSTS_o3,
      mkTokenUsage, TokenUsage.postInit]

/-- Claim C1 (amended): for every model name not in the pricing table, the
quota estimator (`estimate_evaluation_cost`) does use the most expensive known
rates — its result equals that of the highest-priced model "o3" — but the
ledger's `calculate_cost` instead falls back to the fixed default rates
0.001/0.003 per 1k tokens, cheaper than every table entry. -/
theorem claim_C1_amended (model : String) (h : MODEL_COSTS model = none)
    (ein eout : ℕ) (u : TokenUsage) :
    estimate_evaluation_cost model ein eout = estimate_evaluation_cost "o3" ein eout ∧
    calculate_cost model u =
      ((u.input_tokens : ℚ) / 1000 * 0.001, (u.output_tokens : ℚ) / 1000 * 0.003,
        (u.input_tokens : ℚ) / 1000 * 0.001 + (u.output_tokens : ℚ) / 1000 * 0.003) := by
  constructor
  · unfold estimate_evaluation_cost estimateRates
    rw [h, MODEL_COSTS_o3]
  · unfold calculate_cost calcRates
    rw [h]

/-- Witness for C1 (amended) at "unknown-model". -/
theorem claim_C1_amended_witness :
    MODEL_COSTS "unknown-model" = none ∧
    (estimate_evaluation_cost "unknown-model" 1000 2000 =
        estimate_evaluation_cost "o3" 1000 2000 ∧
      calculate_cost "unknown-model" ⟨1000, 2000, 3000, 0, 0⟩ =
        (((1000 : ℕ) : ℚ) / 1000 * 0.001, ((2000 : ℕ) : ℚ) / 1000 * 0.003,
          ((1000 : ℕ) : ℚ) / 1000 * 0.001 + ((2000 : ℕ) : ℚ) / 1000 * 0.003)) :=
  ⟨rfl, claim_C1_amended "unknown-model" rfl 1000 2000 ⟨1000, 2000, 3000, 0, 0⟩⟩

/-- Claim C2 counterexample: with all arguments at their defaults
(`allow_warnings = True`), a check whose status is WARNING does NOT raise —
`enforce_quota` returns it as a success value — so the default behavior is
fail-open on warnings, not fail-closed. Concretely: default limits, 90 of the
100 daily budget already used, a zero-cost estimate on "gpt-5". -/
theorem claim_C2_counterexample :
    (check_quota_compliance defaultBudgetLimits 90 0 "gpt-5" 0 0 0).status =
      QuotaStatus.WARNING ∧
    enforce_quota_with_defaults defaultBudgetLimits 90 0 "gpt-5" 0 0 =
      Except.ok (check_quota_compliance defaultBudgetLimits 90 0 "gpt-5" 0 0 0) := by
  have hst : (check_quota_compliance defaultBudgetLimits 90 0 "gpt-5" 0 0 0).status =
      QuotaStatus.WARNING := by
    norm_num [check_quota_compliance, quotaStatusOf, quotaContextUtil, contextWindowOr128k,
      estimate_evaluation_cost, estimateRates, MODEL_COSTS_gpt5, defaultBudgetLimits]
  refine ⟨hst, ?_⟩
  unfold enforce_quota_with_defaults enforce_quota
  rw [if_neg (by rw [hst]; intro hc; exact QuotaStatus.noConfusion hc),
    if_neg (by intro hc; exact Bool.noConfusion hc.2)]

/-- Claim C2 (amended): `enforce_quota` raises a quota error carrying the
computed QuotaCheck exactly when the check's status is BLOCKED, or when it is
WARNING and the caller passes `allow_warnings = False`; with the default
`allow_warnings = True` the behavior is fail-open on warnings (only BLOCKED
raises); when it does not raise, it returns the QuotaCheck unchanged. -/
theorem claim_C2_amended (limits : BudgetLimits) (daily_cost_used : ℚ)
    (hourly_tokens_used : ℕ) (model : String)
    (estimated_input_tokens estimated_output_tokens context_tokens : ℕ)
    (allow_warnings : Bool) :
    (enforce_quota limits daily_cost_used hourly_tokens_used model
        estimated_input_tokens estimated_output_tokens context_tokens allow_warnings =
      Except.error (check_quota_compliance limits daily_cost_used hourly_tokens_used
        model estimated_input_tokens estimated_output_tokens context_tokens) ↔
      (check_quota_compliance limits daily_cost_used hourly_tokens_used model
          estimated_input_tokens estimated_output_tokens context_tokens).status =
        QuotaStatus.BLOCKED ∨
        ((check_quota_compliance limits daily_cost_used hourly_tokens_used model
            estimated_input_tokens estimated_output_tokens context_tokens).status =
          QuotaStatus.WARNING ∧ allow_warnings = false)) ∧
    (enforce_quota limits daily_cost_used hourly_tokens_used model
        estimated_input_tokens estimated_output_tokens context_tokens allow_warnings =
      Except.ok (check_quota_compliance limits daily_cost_used hourly_tokens_used
        model estimated_input_tokens estimated_output_tokens context_tokens) ↔
      ¬ ((check_quota_compliance limits daily_cost_used hourly_tokens_used model
          estimated_input_tokens estimated_output_tokens context_tokens).status =
        QuotaStatus.BLOCKED ∨
        ((check_quota_compliance limits daily_cost_used hourly_tokens_used model
            estimated_input_tokens estimated_output_tokens context_tokens).status =
          QuotaStatus.WARNING ∧ allow_warnings = false))) ∧
    (enforce_quota limits daily_cost_used hourly_tokens_used model
        estimated_input_tokens estimated_output_tokens context_tokens true =
      Except.error (check_quota_compliance limits daily_cost_used hourly_tokens_used
        model estimated_input_tokens estimated_output_tokens context_tokens) ↔
      (check_quota_compliance limits daily_cost_used hourly_tokens_used model
          estimated_input_tokens estimated_output_tokens context_tokens).status =
        QuotaStatus.BLOCKED) ∧
    enforce_quota_with_defaults limits daily_cost_used hourly_tokens_used model
        estimated_input_tokens estimated_output_tokens =
      enforce_quota limits daily_cost_used hourly_tokens_used model
        estimated_input_tokens estimated_output_tokens 0 true := by
  refine ⟨?_, ?_, ?_, rfl⟩ <;>
    · unfold enforce_quota
      dsimp only
      split_ifs <;> simp_all

/-- Claim C4: a quota check returns BLOCKED exactly when a hard limit is
exceeded (estimated cost above remaining daily budget, estimated tokens above
remaining hourly tokens, or context utilization above the maximum); the
blocking conditions are tested before any warning condition (a WARNING can
only arise when no blocking condition holds), and a check that triggers no
blocking and no warning condition returns ALLOWED. -/
theorem claim_C4 (limits : BudgetLimits) (daily_cost_used : ℚ)
    (hourly_tokens_used : ℕ) (model : String) (ein eout ctx : ℕ)
    (_hd : 0 < limits.daily_cost_limit) (_hh : 0 < limits.hourly_token_limit) :
    ((check_quota_compliance limits daily_cost_used hourly_tokens_used model
        ein eout ctx).status = QuotaStatus.BLOCKED ↔
      quotaBlockCond limits daily_cost_used hourly_tokens_used model ein eout ctx) ∧
    ((check_quota_compliance limits daily_cost_used hourly_tokens_used model
        ein eout ctx).status = QuotaStatus.WARNING ↔
      ¬ quotaBlockCond limits daily_cost_used hourly_tokens_used model ein eout ctx ∧
        quotaWarnCond limits daily_cost_used hourly_tokens_used model ein eout ctx) ∧
    ((check_quota_compliance limits daily_cost_used hourly_tokens_used model
        ein eout ctx).status = QuotaStatus.ALLOWED ↔
      ¬ quotaBlockCond limits daily_cost_used hourly_tokens_used model ein eout ctx ∧
        ¬ quotaWarnCond limits daily_cost_used hourly_tokens_used model ein eout ctx) :=
  ⟨quotaStatusOf_blocked_iff limits daily_cost_used hourly_tokens_used model ein eout ctx,
   quotaStatusOf_warning_iff limits daily_cost_used hourly_tokens_used model ein eout ctx,
   quotaStatusOf_allowed_iff limits daily_cost_used hourly_tokens_used model ein eout ctx⟩

/-- Witness for C4 with the default limits, zero ledger usage and a small
"gpt-5" evaluation. -/
theorem claim_C4_witness :
    (0 : ℚ) < defaultBudgetLimits.daily_cost_limit ∧
    0 < defaultBudgetLimits.hourly_token_limit ∧
    ((check_quota_compliance defaultBudgetLimits 0 0 "gpt-5" 1000 500 0).status =
        QuotaStatus.BLOCKED ↔
      quotaBlockCond defaultBudgetLimits 0 0 "gpt-5" 1000 500 0) :=
  ⟨by norm_num [defaultBudgetLimits], by norm_num [defaultBudgetLimits],
   (claim_C4 defaultBudgetLimits 0 0 "gpt-5" 1000 500 0
     (by norm_num [defaultBudgetLimits]) (by norm_num [defaultBudgetLimits])).1⟩

/-- Claim C5: the quota check is monotonic in the estimated input tokens —
for input-token estimates a ≤ b (everything else fixed), if the check at a is
WARNING or BLOCKED then the check at b is not ALLOWED. -/
theorem claim_C5 (limits : BudgetLimits) (daily_cost_used : ℚ)
    (hourly_tokens_used : ℕ) (model : String) (a b eout ctx : ℕ)
    (hd : 0 < limits.daily_cost_limit) (hh : 0 < limits.hourly_token_limit)
    (hab : a ≤ b)
    (h : (check_quota_compliance limits daily_cost_used hourly_tokens_used model
            a eout ctx).status = QuotaStatus.WARNING ∨
         (check_quota_compliance limits daily_cost_used hourly_tokens_used model
            a eout ctx).status = QuotaStatus.BLOCKED) :
    (check_quota_compliance limits daily_cost_used hourly_tokens_used model
        b eout ctx).status ≠ QuotaStatus.ALLOWED := by
  intro hallow
  have hb : quotaStatusOf limits daily_cost_used hourly_tokens_used model b eout ctx =
      QuotaStatus.ALLOWED := hallow
  rw [quotaStatusOf_allowed_iff] at hb
  obtain ⟨hnb, hnw⟩ := hb
  unfold quotaBlockCond at hnb
  unfold quotaWarnCond at hnw
  push_neg at hnb hnw
  obtain ⟨hb1, hb2, hb3⟩ := hnb
  obtain ⟨hw1, hw2, hw3⟩ := hnw
  have hcost := estimate_cost_mono model a b eout hab
  have htok : (estimate_evaluation_cost model a eout).2 ≤
      (estimate_evaluation_cost model b eout).2 := by
    unfold estimate_evaluation_cost
    dsimp only
    omega
  have hL : (0 : ℚ) < (limits.hourly_token_limit : ℚ) := by exact_mod_cast hh
  have ha : quotaStatusOf limits daily_cost_used hourly_tokens_used model a eout ctx =
      QuotaStatus.ALLOWED := by
    rw [quotaStatusOf_allowed_iff]
    constructor
    · unfold quotaBlockCond
      push_neg
      refine ⟨le_trans hcost hb1, ?_, hb3⟩
      have : ((estimate_evaluation_cost model a eout).2 : ℤ) ≤
          ((estimate_evaluation_cost model b eout).2 : ℤ) := by exact_mod_cast htok
      omega
    · unfold quotaWarnCond
      push_neg
      refine ⟨?_, ?_, hw3⟩
      · calc (daily_cost_used + (estimate_evaluation_cost model a eout).1) /
              limits.daily_cost_limit
            ≤ (daily_cost_used + (estimate_evaluation_cost model b eout).1) /
              limits.daily_cost_limit := by
              apply div_le_div_of_nonneg_right ?_ hd.le
              · linarith
          _ ≤ limits.cost_alert_threshold := hw1
      · calc ((hourly_tokens_used : ℚ) + ((estimate_evaluation_cost model a eout).2 : ℚ)) /
              (limits.hourly_token_limit : ℚ)
            ≤ ((hourly_tokens_used : ℚ) + ((estimate_evaluation_cost model b eout).2 : ℚ)) /
              (limits.hourly_token_limit : ℚ) := by
              apply div_le_div_of_nonneg_right ?_ hL.le
              · have : ((estimate_evaluation_cost model a eout).2 : ℚ) ≤
                    ((estimate_evaluation_cost model b eout).2 : ℚ) := by exact_mod_cast htok
                linarith
          _ ≤ limits.cost_alert_threshold := hw2
  rcases h with hw | hbk
  · have : QuotaStatus.WARNING = QuotaStatus.ALLOWED := by
      rw [← hw]; exact ha
    exact QuotaStatus.noConfusion this
  · have : QuotaStatus.BLOCKED = QuotaStatus.ALLOWED := by
      rw [← hbk]; exact ha
    exact QuotaStatus.noConfusion this

/-- Witness for C5: default limits with 90 of the 100 daily budget used; a
1000-input-token check on "gpt-5" is WARNING, and the 2000-input-token check
is not ALLOWED. -/
theorem claim_C5_witness :
    (0 : ℚ) < defaultBudgetLimits.daily_cost_limit ∧
    0 < defaultBudgetLimits.hourly_token_limit ∧
    (1000 : ℕ) ≤ 2000 ∧
    ((check_quota_compliance defaultBudgetLimits 90 0 "gpt-5" 1000 0 0).status =
        QuotaStatus.WARNING ∨
      (check_quota_compliance defaultBudgetLimits 90 0 "gpt-5" 1000 0 0).status =
        QuotaStatus.BLOCKED) ∧
    (check_quota_compliance defaultBudgetLimits 90 0 "gpt-5" 2000 0 0).status ≠
      QuotaStatus.ALLOWED := by
  have h1 : (0 : ℚ) < defaultBudgetLimits.daily_cost_limit := by
    norm_num [defaultBudgetLimits]
  have h2 : 0 < defaultBudgetLimits.hourly_token_limit := by
    norm_num [defaultBudgetLimits]
  have h3 : (1000 : ℕ) ≤ 2000 := by norm_num
  have h4 : (check_quota_compliance defaultBudgetLimits 90 0 "gpt-5" 1000 0 0).status =
        QuotaStatus.WARNING ∨
      (check_quota_compliance defaultBudgetLimits 90 0 "gpt-5" 1000 0 0).status =
        QuotaStatus.BLOCKED :=
    Or.inl (by
      norm_num [check_quota_compliance, quotaStatusOf, quotaContextUtil, contextWindowOr128k,
        estimate_evaluation_cost, estimateRates, MODEL_COSTS_gpt5, defaultBudgetLimits])
  exact ⟨h1, h2, h3, h4,
    claim_C5 defaultBudgetLimits 90 0 "gpt-5" 1000 2000 0 0 h1 h2 h3 h4⟩

/-- Claim C7 counterexample: a caller may pass `record_usage` a `TokenUsage`
constructed with an explicit nonzero `total_tokens` (here 100 with 1 input and
2 output tokens); `__post_init__` keeps it, and the stored record violates
`total_tokens = input_tokens + output_tokens`. -/
theorem claim_C7_counterexample :
    (record_usage 0 "eval" "task" "gpt-5" (mkTokenUsage 1 2 100 0 0)).token_usage.total_tokens
      = 100 ∧
    (record_usage 0 "eval" "task" "gpt-5" (mkTokenUsage 1 2 100 0 0)).token_usage.input_tokens +
      (record_usage 0 "eval" "task" "gpt-5" (mkTokenUsage 1 2 100 0 0)).token_usage.output_tokens
      = 3 ∧
    (100 : ℕ) ≠ 3 := by
  refine ⟨?_, ?_, by norm_num⟩ <;>
    simp +decide [record_usage, mkTokenUsage, TokenUsage.postInit]

/-- Claim C7 (amended): every `CostRecord` built by `record_usage` satisfies
`total_cost = input_cost + output_cost`, and its `context_utilization` equals
`context_window_used` divided by the model's table context window (default
128000) — not by the caller-supplied `context_window_limit` field; the
invariant `total_tokens = input_tokens + output_tokens` holds whenever the
caller leaves `total_tokens` at its default 0 (so that `__post_init__` fills
it), but a caller-supplied nonzero `total_tokens` is kept as-is. -/
theorem claim_C7_amended (timestamp : ℚ) (evaluation_id task_id model : String)
    (u : TokenUsage) :
    (record_usage timestamp evaluation_id task_id model u).total_cost =
      (record_usage timestamp evaluation_id task_id model u).input_cost +
        (record_usage timestamp evaluation_id task_id model u).output_cost ∧
    (record_usage timestamp evaluation_id task_id model u).context_utilization =
      (u.context_window_used : ℚ) / (contextWindowOr128k model : ℚ) ∧
    (u.total_tokens = 0 →
      (TokenUsage.postInit u).total_tokens = u.input_tokens + u.output_tokens) := by
  refine ⟨rfl, ?_, ?_⟩
  · unfold record_usage
    dsimp only
    rw [if_pos (contextWindowOr128k_pos model)]
  · intro h0
    unfold TokenUsage.postInit
    rw [if_pos h0]

/-- Witness for C7 (amended): a `TokenUsage` left with `total_tokens = 0`
gets it filled with the sum by `__post_init__`. -/
theorem claim_C7_amended_witness :
    (TokenUsage.postInit ⟨1500, 500, 0, 75000, 128000⟩).total_tokens = 1500 + 500 :=
  (claim_C7_amended 0 "eval" "task" "gpt-5" ⟨1500, 500, 0, 75000, 128000⟩).2.2 rfl

/-! ## Helper lemmas for the repetition scan (C6) -/

/-- `joinWords` transported to character lists. -/
def joinData : List (List Char) → List Char
  | [] => []
  | w :: ws =>
    match ws with
    | [] => w
    | _ :: _ => w ++ ' ' :: joinData ws

theorem joinWords_data (ws : List String) :
    (joinWords ws).data = joinData (ws.map String.data) := by
  induction ws with
  | nil => rfl
  | cons w ws ih =>
    cases ws with
    | nil => rfl
    | cons x xs =>
      show (w ++ " " ++ joinWords (x :: xs)).data =
        w.data ++ ' ' :: joinData ((x :: xs).map String.data)
      rw [String.data_append, String.data_append, ih]
      simp

theorem seqContains_append (mid : List Char) :
    ∀ pre suf : List Char, seqContains mid (pre ++ (mid ++ suf)) = true := by
  intro pre
  induction pre with
  | nil =>
    intro suf
    cases mid with
    | nil =>
      cases suf with
      | nil => rfl
      | cons c cs => rfl
    | cons m ms =>
      have hpre : (m :: ms).isPrefixOf ((m :: ms) ++ suf) = true := by
        rw [ List.isPrefixOf_iff_prefix]
        exact List.prefix_append (m :: ms) suf
      rw [List.cons_append] at hpre
      show ((m :: ms).isPrefixOf (m :: (ms ++ suf)) ||
        seqContains (m :: ms) (ms ++ suf)) = true
      rw [hpre, Bool.true_or]
  | cons c pre ih =>
    intro suf
    show (mid.isPrefixOf (c :: (pre ++ (mid ++ suf))) ||
      seqContains mid (pre ++ (mid ++ suf))) = true
    rw [ih suf, Bool.or_true]

theorem joinData_append_cons (w : List Char) (ws : List (List Char)) :
    ∀ seg : List (List Char), seg ≠ [] →
      joinData (seg ++ w :: ws) = joinData seg ++ ' ' :: joinData (w :: ws) := by
  intro seg
  induction seg with
  | nil => intro h; exact absurd rfl h
  | cons s rest ih =>
    intro _
    cases rest with
    | nil => rfl
    | cons t ts =>
      show joinData (s :: ((t :: ts) ++ w :: ws)) =
        joinData (s :: t :: ts) ++ ' ' :: joinData (w :: ws)
      have h1 : joinData (s :: ((t :: ts) ++ w :: ws)) =
          s ++ ' ' :: joinData ((t :: ts) ++ w :: ws) := rfl
      rw [h1, ih (by simp)]
      show s ++ ' ' :: (joinData (t :: ts) ++ ' ' :: joinData (w :: ws)) =
        (s ++ ' ' :: joinData (t :: ts)) ++ ' ' :: joinData (w :: ws)
      simp

/-- A contiguous nonempty segment of a word list occurs, once space-joined,
as a substring of the space-joined whole list. -/
theorem strContains_join (pre seg suf : List String) (h : seg ≠ []) :
    strContains (joinWords (pre ++ seg ++ suf)) (joinWords seg) = true := by
  unfold strContains
  rw [joinWords_data, joinWords_data, List.map_append, List.map_append, List.append_assoc]
  have hS : seg.map String.data ≠ [] := by
    intro hc
    exact h (List.map_eq_nil_iff.mp hc)
  obtain ⟨s, ss, hseg⟩ : ∃ a l, seg.map String.data = a :: l := by
    cases hs : seg.map String.data with
    | nil => exact absurd hs hS
    | cons a l => exact ⟨a, l, rfl⟩
  have hSU : joinData (seg.map String.data ++ suf.map String.data) =
      joinData (seg.map String.data) ++
        (match suf.map String.data with
         | [] => ([] : List Char)
         | w :: ws => ' ' :: joinData (w :: ws)) := by
    cases hu : suf.map String.data with
    | nil => simp
    | cons w ws => rw [joinData_append_cons w ws _ hS]
  cases hp : pre.map String.data with
  | nil =>
    rw [List.nil_append, hSU]
    have hres := seqContains_append (joinData (seg.map String.data)) []
      ((match suf.map String.data with
        | [] => ([] : List Char)
        | w :: ws => ' ' :: joinData (w :: ws)))
    simpa using hres
  | cons p ps =>
    have hcons : seg.map String.data ++ suf.map String.data =
        s :: (ss ++ suf.map String.data) := by
      rw [hseg, List.cons_append]
    rw [hcons, joinData_append_cons s (ss ++ suf.map String.data) (p :: ps) (by simp),
      ← hcons, hSU]
    have hres := seqContains_append (joinData (seg.map String.data))
      (joinData (p :: ps) ++ [' '])
      ((match suf.map String.data with
        | [] => ([] : List Char)
        | w :: ws => ' ' :: joinData (w :: ws)))
    simpa [List.append_assoc] using hres

/-- If a word-aligned 3-word phrase at position `i` recurs at a later
word-aligned position `j` in a list of more than 10 words, the repetition
scan reports true. -/
theorem detectRepetition_of_recur (ws : List String) (i j : ℕ)
    (hlen : 10 < ws.length) (hij : i + 3 ≤ j) (hj : j + 3 ≤ ws.length)
    (heq : (ws.drop i).take 3 = (ws.drop j).take 3) :
    detectRepetition ws = true := by
  unfold detectRepetition
  rw [if_pos hlen, List.any_eq_true]
  refine ⟨i, List.mem_range.mpr (by omega), ?_⟩
  rw [heq]
  have hdecomp : ws.drop (i + 3) =
      ((ws.drop (i + 3)).take (j - (i + 3)) ++ (ws.drop j).take 3) ++ ws.drop (j + 3) := by
    conv_lhs => rw [← List.take_append_drop (j - (i + 3)) (ws.drop (i + 3))]
    rw [List.drop_drop]
    have hj3 : i + 3 + (j - (i + 3)) = j := by omega
    rw [hj3]
    conv_lhs => rw [← List.take_append_drop 3 (ws.drop j)]
    rw [List.drop_drop, ← List.append_assoc]
  rw [hdecomp]
  apply strContains_join
  have hlen2 : ((ws.drop j).take 3).length = 3 := by
    rw [List.length_take, List.length_drop]
    omega
  intro hnil
  rw [hnil] at hlen2
  simp at hlen2

/-- Claim C6 counterexample: the non-empty text "a b c a b c" contains the
3-word phrase "a b c" again later, yet `detect_response_issues` reports
`repetition_detected = false` (the scan only runs on texts of more than 10
words). -/
theorem claim_C6_counterexample :
    "a b c a b c" ≠ "" ∧
    pySplit "a b c a b c" = ["a", "b", "c", "a", "b", "c"] ∧
    ((pySplit "a b c a b c").drop 0).take 3 = ((pySplit "a b c a b c").drop 3).take 3 ∧
    (detect_response_issues "a b c a b c" none).2.1 = false := by
  refine ⟨by decide, by decide, by decide, ?_⟩
  simp +decide [detect_response_issues]

/-- Claim C6 (amended): for every response text of MORE THAN 10 words (split
on whitespace) in which some word-aligned 3-word phrase occurs again at a
later word-aligned position, `detect_response_issues` reports
`repetition_detected = true`; texts of at most 10 words are never flagged. -/
theorem claim_C6_amended (text : String) (i j : ℕ)
    (hlen : 10 < (pySplit text).length)
    (hij : i + 3 ≤ j) (hj : j + 3 ≤ (pySplit text).length)
    (heq : ((pySplit text).drop i).take 3 = ((pySplit text).drop j).take 3) :
    (detect_response_issues text none).2.1 = true := by
  have hne : text ≠ "" := by
    intro h0
    rw [h0] at hlen
    exact absurd hlen (by decide)
  unfold detect_response_issues
  rw [if_neg hne]
  exact detectRepetition_of_recur (pySplit text) i j hlen hij hj heq

/-- Witness for C6 (amended): a 14-word text in which "a b c" recurs. -/
theorem claim_C6_amended_witness :
    10 < (pySplit "a b c d e f g h i j k a b c").length ∧
    ((pySplit "a b c d e f g h i j k a b c").drop 0).take 3 =
      ((pySplit "a b c d e f g h i j k a b c").drop 11).take 3 ∧
    (detect_response_issues "a b c d e f g h i j k a b c" none).2.1 = true :=
  ⟨by decide, by decide,
    claim_C6_amended "a b c d e f g h i j k a b c" 0 11
      (by decide) (by decide) (by decide) (by decide)⟩

/-! ## Helper lemmas for the circuit breaker (C3, C10) -/

theorem resetStats_state (cb : CircuitBreaker) (now : ℚ) :
    (cb.resetStatsIfNeeded now).state = cb.state := by
  unfold CircuitBreaker.resetStatsIfNeeded
  split_ifs <;> rfl

theorem resetStats_failure_count (cb : CircuitBreaker) (now : ℚ) :
    (cb.resetStatsIfNeeded now).failure_count = cb.failure_count := by
  unfold CircuitBreaker.resetStatsIfNeeded
  split_ifs <;> rfl

theorem resetStats_success_count (cb : CircuitBreaker) (now : ℚ) :
    (cb.resetStatsIfNeeded now).success_count = cb.success_count := by
  unfold CircuitBreaker.resetStatsIfNeeded
  split_ifs <;> rfl

theorem resetStats_last_failure_time (cb : CircuitBreaker) (now : ℚ) :
    (cb.resetStatsIfNeeded now).last_failure_time = cb.last_failure_time := by
  unfold CircuitBreaker.resetStatsIfNeeded
  split_ifs <;> rfl

theorem resetStats_config (cb : CircuitBreaker) (now : ℚ) :
    (cb.resetStatsIfNeeded now).config = cb.config := by
  unfold CircuitBreaker.resetStatsIfNeeded
  split_ifs <;> rfl

theorem record_failure_spec (cb : CircuitBreaker) (now : ℚ) :
    (cb.record_failure now).failure_count = cb.failure_count + 1 ∧
    (cb.record_failure now).success_count = cb.success_count ∧
    (cb.record_failure now).last_failure_time = now ∧
    (cb.record_failure now).config = cb.config ∧
    (cb.record_failure now).state =
      (if cb.failure_count + 1 ≥ cb.config.failure_threshold then CircuitState.OPEN
       else cb.state) := by
  unfold CircuitBreaker.record_failure
  dsimp only
  split_ifs <;> exact ⟨rfl, rfl, rfl, rfl, rfl⟩

theorem record_success_spec (cb : CircuitBreaker) (now : ℚ) (tok : ℕ) (cost : ℚ) :
    (cb.record_success now tok cost).config = cb.config ∧
    (cb.record_success now tok cost).last_failure_time = cb.last_failure_time ∧
    ((cb.record_success now tok cost).state,
      (cb.record_success now tok cost).failure_count,
      (cb.record_success now tok cost).success_count) =
      (if cb.state = CircuitState.HALF_OPEN then
        (if cb.success_count + 1 ≥ cb.config.success_threshold then
          (CircuitState.CLOSED, 0, cb.success_count + 1)
        else (cb.state, cb.failure_count, cb.success_count + 1))
      else (cb.state, cb.failure_count, cb.success_count)) := by
  unfold CircuitBreaker.record_success
  dsimp only
  split_ifs <;> exact ⟨rfl, rfl, rfl⟩

theorem can_request_false_of_costLimit (cb : CircuitBreaker) (now : ℚ) (et : ℕ) (ec : ℚ)
    (h : (cb.resetStatsIfNeeded now).costLimitsOk et ec = false) :
    cb.can_request now et ec = (false, cb.resetStatsIfNeeded now) := by
  unfold CircuitBreaker.can_request
  dsimp only
  simp [h]

theorem can_request_not_open (cb : CircuitBreaker) (now : ℚ) (et : ℕ) (ec : ℚ)
    (hst : cb.state ≠ CircuitState.OPEN)
    (hcost : (cb.resetStatsIfNeeded now).costLimitsOk et ec = true) :
    cb.can_request now et ec = (true, cb.resetStatsIfNeeded now) := by
  unfold CircuitBreaker.can_request
  dsimp only
  rw [resetStats_state]
  simp [hcost, hst]

theorem can_request_open_wait (cb : CircuitBreaker) (now : ℚ) (et : ℕ) (ec : ℚ)
    (hst : cb.state = CircuitState.OPEN)
    (hcost : (cb.resetStatsIfNeeded now).costLimitsOk et ec = true)
    (htime : ¬ (now - cb.last_failure_time > cb.config.recovery_timeout)) :
    cb.can_request now et ec = (false, cb.resetStatsIfNeeded now) := by
  unfold CircuitBreaker.can_request
  dsimp only
  rw [resetStats_state, resetStats_last_failure_time, resetStats_config]
  simp [hcost, hst, htime]

theorem can_request_open_elapsed (cb : CircuitBreaker) (now : ℚ) (et : ℕ) (ec : ℚ)
    (hst : cb.state = CircuitState.OPEN)
    (hcost : (cb.resetStatsIfNeeded now).costLimitsOk et ec = true)
    (htime : now - cb.last_failure_time > cb.config.recovery_timeout) :
    cb.can_request now et ec =
      (true, { cb.resetStatsIfNeeded now with
                state := CircuitState.HALF_OPEN, success_count := 0 }) := by
  unfold CircuitBreaker.can_request
  dsimp only
  rw [resetStats_state, resetStats_last_failure_time, resetStats_config]
  simp [hcost, hst, htime]

/-- The reachable-state invariant of the breaker: while OPEN or HALF_OPEN,
the failure counter has already reached the threshold (it is only reset on a
HALF_OPEN → CLOSED recovery). -/
def FailureCountInv (cb : CircuitBreaker) : Prop :=
  (cb.state = CircuitState.OPEN ∨ cb.state = CircuitState.HALF_OPEN) →
    cb.config.failure_threshold ≤ cb.failure_count

theorem failureCountInv_init (config : CircuitBreakerConfig) (now : ℚ) :
    FailureCountInv (CircuitBreaker.init config now) := by
  intro hstate
  rcases hstate with hs | hs <;> exact absurd hs (by simp [CircuitBreaker.init])

theorem failureCountInv_record_failure (cb : CircuitBreaker) (now : ℚ)
    (hInv : FailureCountInv cb) : FailureCountInv (cb.record_failure now) := by
  have hs := record_failure_spec cb now
  intro hstate
  rw [hs.2.2.2.1, hs.1]
  by_cases hth : cb.failure_count + 1 ≥ cb.config.failure_threshold
  · exact hth
  · rw [hs.2.2.2.2, if_neg hth] at hstate
    exact Nat.le_succ_of_le (hInv hstate)

theorem failureCountInv_record_success (cb : CircuitBreaker) (now : ℚ) (tok : ℕ) (cost : ℚ)
    (hInv : FailureCountInv cb) : FailureCountInv (cb.record_success now tok cost) := by
  have hs := record_success_spec cb now tok cost
  intro hstate
  rw [hs.1]
  by_cases hho : cb.state = CircuitState.HALF_OPEN
  · by_cases hsc : cb.success_count + 1 ≥ cb.config.success_threshold
    · rw [if_pos hho, if_pos hsc, Prod.mk.injEq, Prod.mk.injEq] at hs
      rw [hs.2.2.1] at hstate
      rcases hstate with hc | hc <;> exact absurd hc (by simp)
    · rw [if_pos hho, if_neg hsc, Prod.mk.injEq, Prod.mk.injEq] at hs
      rw [hs.2.2.2.1]
      exact hInv (Or.inr hho)
  · rw [if_neg hho, Prod.mk.injEq, Prod.mk.injEq] at hs
    rw [hs.2.2.2.1]
    rw [hs.2.2.1] at hstate
    exact hInv hstate

theorem failureCountInv_can_request (cb : CircuitBreaker) (now : ℚ) (et : ℕ) (ec : ℚ)
    (hInv : FailureCountInv cb) : FailureCountInv (cb.can_request now et ec).2 := by
  have hreset : FailureCountInv (cb.resetStatsIfNeeded now) := by
    intro hstate
    rw [resetStats_config, resetStats_failure_count]
    rw [resetStats_state] at hstate
    exact hInv hstate
  by_cases hcost : (cb.resetStatsIfNeeded now).costLimitsOk et ec = true
  · by_cases hst : cb.state = CircuitState.OPEN
    · by_cases htime : now - cb.last_failure_time > cb.config.recovery_timeout
      · rw [can_request_open_elapsed cb now et ec hst hcost htime]
        intro _
        show (cb.resetStatsIfNeeded now).config.failure_threshold ≤
          (cb.resetStatsIfNeeded now).failure_count
        rw [resetStats_config, resetStats_failure_count]
        exact hInv (Or.inl hst)
      · rw [can_request_open_wait cb now et ec hst hcost htime]
        exact hreset
    · rw [can_request_not_open cb now et ec hst hcost]
      exact hreset
  · have hfalse : (cb.resetStatsIfNeeded now).costLimitsOk et ec = false := by
      cases hcb : (cb.resetStatsIfNeeded now).costLimitsOk et ec
      · rfl
      · exact absurd hcb hcost
    rw [can_request_false_of_costLimit cb now et ec hfalse]
    exact hreset

/-- Claim C3 counterexample: with failure_threshold = 2, the trace
failure, success, failure from a fresh CLOSED breaker reaches OPEN — the
success in CLOSED did not reset the failure run (the counter stays 1 after
it), so OPEN is reached without 2 CONSECUTIVE failures. -/
theorem claim_C3_counterexample :
    (CircuitBreaker.init ⟨2, 60, 3, 100000, 50⟩ 0).state = CircuitState.CLOSED ∧
    (((CircuitBreaker.init ⟨2, 60, 3, 100000, 50⟩ 0).record_failure 1).record_success
        2 0 0).failure_count = 1 ∧
    ((((CircuitBreaker.init ⟨2, 60, 3, 100000, 50⟩ 0).record_failure 1).record_success
        2 0 0).record_failure 3).state = CircuitState.OPEN := by
  refine ⟨rfl, ?_, ?_⟩ <;>
    simp +decide [CircuitBreaker.init, CircuitBreaker.record_failure,
      CircuitBreaker.record_success]

/-- Claim C3 (amended): state-machine characterization of the breaker over
all states satisfying the reachable-state invariant `FailureCountInv`.
A failure increments a CUMULATIVE failure counter and the state is OPEN after
it exactly when the counter has reached `failure_threshold` (a success in
CLOSED does NOT reset the run — amending the claim); while OPEN,
`can_request` refuses until `recovery_timeout` has elapsed since the last
failure and then moves to HALF_OPEN (zeroing the success counter);
`success_threshold` consecutive successes in HALF_OPEN close the circuit and
reset the failure counter to 0; one failure in HALF_OPEN reopens it; no
other transitions occur (successes outside HALF_OPEN and admitted
`can_request` calls leave state and counters unchanged), and the invariant is
preserved by every operation. -/
theorem claim_C3_amended (cb : CircuitBreaker) (now : ℚ) (tok : ℕ) (cost : ℚ)
    (et : ℕ) (ec : ℚ) (hInv : FailureCountInv cb) :
    (cb.record_failure now).failure_count = cb.failure_count + 1 ∧
    ((cb.record_failure now).state = CircuitState.OPEN ↔
      cb.config.failure_threshold ≤ cb.failure_count + 1) ∧
    (cb.state ≠ CircuitState.HALF_OPEN →
      (cb.record_success now tok cost).state = cb.state ∧
      (cb.record_success now tok cost).failure_count = cb.failure_count ∧
      (cb.record_success now tok cost).success_count = cb.success_count) ∧
    (cb.state = CircuitState.OPEN →
      (cb.resetStatsIfNeeded now).costLimitsOk et ec = true →
      ¬ (now - cb.last_failure_time > cb.config.recovery_timeout) →
      (cb.can_request now et ec).1 = false ∧
      (cb.can_request now et ec).2.state = CircuitState.OPEN) ∧
    (cb.state = CircuitState.OPEN →
      (cb.resetStatsIfNeeded now).costLimitsOk et ec = true →
      now - cb.last_failure_time > cb.config.recovery_timeout →
      (cb.can_request now et ec).1 = true ∧
      (cb.can_request now et ec).2.state = CircuitState.HALF_OPEN ∧
      (cb.can_request now et ec).2.success_count = 0 ∧
      (cb.can_request now et ec).2.failure_count = cb.failure_count) ∧
    (cb.state = CircuitState.HALF_OPEN →
      cb.config.success_threshold ≤ cb.success_count + 1 →
      (cb.record_success now tok cost).state = CircuitState.CLOSED ∧
      (cb.record_success now tok cost).failure_count = 0) ∧
    (cb.state = CircuitState.HALF_OPEN →
      cb.success_count + 1 < cb.config.success_threshold →
      (cb.record_success now tok cost).state = CircuitState.HALF_OPEN ∧
      (cb.record_success now tok cost).success_count = cb.success_count + 1 ∧
      (cb.record_success now tok cost).failure_count = cb.failure_count) ∧
    (cb.state = CircuitState.HALF_OPEN →
      (cb.record_failure now).state = CircuitState.OPEN) ∧
    (cb.state ≠ CircuitState.OPEN →
      (cb.resetStatsIfNeeded now).costLimitsOk et ec = true →
      (cb.can_request now et ec).1 = true ∧
      (cb.can_request now et ec).2.state = cb.state ∧
      (cb.can_request now et ec).2.failure_count = cb.failure_count ∧
      (cb.can_request now et ec).2.success_count = cb.success_count) ∧
    FailureCountInv (cb.record_failure now) ∧
    FailureCountInv (cb.record_success now tok cost) ∧
    FailureCountInv (cb.can_request now et ec).2 := by
  have hrf := record_failure_spec cb now
  have hrs := record_success_spec cb now tok cost
  refine ⟨hrf.1, ?_, ?_, ?_, ?_, ?_, ?_, ?_, ?_,
    failureCountInv_record_failure cb now hInv,
    failureCountInv_record_success cb now tok cost hInv,
    failureCountInv_can_request cb now et ec hInv⟩
  · rw [hrf.2.2.2.2]
    by_cases hth : cb.config.failure_threshold ≤ cb.failure_count + 1
    · rw [if_pos hth]
      exact iff_of_true rfl hth
    · rw [if_neg hth]
      exact iff_of_false
        (fun hs => hth (Nat.le_succ_of_le (hInv (Or.inl hs)))) hth
  · intro hns
    rw [if_neg hns, Prod.mk.injEq, Prod.mk.injEq] at hrs
    exact ⟨hrs.2.2.1, hrs.2.2.2.1, hrs.2.2.2.2⟩
  · intro hst hcost htime
    rw [can_request_open_wait cb now et ec hst hcost htime]
    exact ⟨rfl, (resetStats_state cb now).trans hst⟩
  · intro hst hcost htime
    rw [can_request_open_elapsed cb now et ec hst hcost htime]
    exact ⟨rfl, rfl, rfl, resetStats_failure_count cb now⟩
  · intro hho hsc
    rw [if_pos hho, if_pos hsc, Prod.mk.injEq, Prod.mk.injEq] at hrs
    exact ⟨hrs.2.2.1, hrs.2.2.2.1⟩
  · intro hho hsc
    rw [if_pos hho, if_neg (not_le.mpr hsc), Prod.mk.injEq, Prod.mk.injEq] at hrs
    exact ⟨hrs.2.2.1.trans hho, hrs.2.2.2.2, hrs.2.2.2.1⟩
  · intro hho
    rw [hrf.2.2.2.2, if_pos (Nat.le_succ_of_le (hInv (Or.inr hho)))]
  · intro hst hcost
    rw [can_request_not_open cb now et ec hst hcost]
    exact ⟨rfl, resetStats_state cb now, resetStats_failure_count cb now,
      resetStats_success_count cb now⟩

/-- Witness for C3 (amended) on a fresh breaker with failure_threshold 2. -/
theorem claim_C3_amended_witness :
    ((CircuitBreaker.init ⟨2, 60, 3, 100000, 50⟩ 0).record_failure 1).failure_count =
      (CircuitBreaker.init ⟨2, 60, 3, 100000, 50⟩ 0).failure_count + 1 :=
  (claim_C3_amended (CircuitBreaker.init ⟨2, 60, 3, 100000, 50⟩ 0) 1 0 0 0 0
    (failureCountInv_init ⟨2, 60, 3, 100000, 50⟩ 0)).1

/-- Claim C10: in every breaker state — including OPEN with the recovery
timeout already elapsed — a `can_request` call whose estimate would push the
hourly tokens or the hourly cost over the ceiling returns false and leaves
the state, failure counter and success counter unchanged; in particular no
OPEN → HALF_OPEN transition happens on such a call. -/
theorem claim_C10 (cb : CircuitBreaker) (now : ℚ) (et : ℕ) (ec : ℚ)
    (h : (cb.resetStatsIfNeeded now).stats.total_tokens + et >
        cb.config.max_tokens_per_hour ∨
      (cb.resetStatsIfNeeded now).stats.total_cost + ec > cb.config.max_cost_per_hour) :
    (cb.can_request now et ec).1 = false ∧
    (cb.can_request now et ec).2.state = cb.state ∧
    (cb.can_request now et ec).2.failure_count = cb.failure_count ∧
    (cb.can_request now et ec).2.success_count = cb.success_count := by
  have hfalse : (cb.resetStatsIfNeeded now).costLimitsOk et ec = false := by
    unfold CircuitBreaker.costLimitsOk
    rw [resetStats_config, decide_eq_false_iff_not]
    rcases h with h | h
    · exact fun hc => hc.1 h
    · exact fun hc => hc.2 h
  rw [can_request_false_of_costLimit cb now et ec hfalse]
  exact ⟨rfl, resetStats_state cb now, resetStats_failure_count cb now,
    resetStats_success_count cb now⟩

/-- Witness for C10: an OPEN breaker whose recovery timeout has elapsed, with
the hourly token budget already full; a 1-token request is refused and the
breaker stays OPEN. -/
theorem claim_C10_witness :
    ((CircuitBreaker.mk ⟨5, 60, 3, 100, 50⟩ CircuitState.OPEN 5 0 0
        ⟨0, 0, 0, 100, 0, 100, []⟩).resetStatsIfNeeded 100).stats.total_tokens + 1 >
      (CircuitBreaker.mk ⟨5, 60, 3, 100, 50⟩ CircuitState.OPEN 5 0 0
        ⟨0, 0, 0, 100, 0, 100, []⟩).config.max_tokens_per_hour ∧
    ((CircuitBreaker.mk ⟨5, 60, 3, 100, 50⟩ CircuitState.OPEN 5 0 0
        ⟨0, 0, 0, 100, 0, 100, []⟩).can_request 100 1 0).1 = false ∧
    ((CircuitBreaker.mk ⟨5, 60, 3, 100, 50⟩ CircuitState.OPEN 5 0 0
        ⟨0, 0, 0, 100, 0, 100, []⟩).can_request 100 1 0).2.state = CircuitState.OPEN := by
  have hover : ((CircuitBreaker.mk ⟨5, 60, 3, 100, 50⟩ CircuitState.OPEN 5 0 0
      ⟨0, 0, 0, 100, 0, 100, []⟩).resetStatsIfNeeded 100).stats.total_tokens + 1 >
      (CircuitBreaker.mk ⟨5, 60, 3, 100, 50⟩ CircuitState.OPEN 5 0 0
        ⟨0, 0, 0, 100, 0, 100, []⟩).config.max_tokens_per_hour := by
    norm_num [CircuitBreaker.resetStatsIfNeeded]
  exact ⟨hover,
    (claim_C10 _ 100 1 0 (Or.inl hover)).1,
    (claim_C10 _ 100 1 0 (Or.inl hover)).2.1⟩

end AmpEval
